import Mathlib

/-!
Shallow embedding of the shopless.js cart engine (`src/index.tsx`).

Monetary values (`Decimal` from decimal.js-light) are modelled as exact
rationals `ℚ`; `Decimal` stores exact base-10 values and addition,
subtraction and multiplication are exact, so `ℚ` is a faithful model of
every computation the claims touch (division appears only in the tax
formulas, where decimal.js-light rounds to 20 significant digits — the
claims speak about the exact values "within rounding tolerance", which the
exact rational model realises).
-/

namespace Shopless

/-- `toDecimalPlaces(2, Decimal.ROUND_HALF_UP)`: round to 2 decimal places,
ties rounded away from zero (decimal.js `ROUND_HALF_UP`). -/
def round2 (q : ℚ) : ℚ :=
  if 0 ≤ q then (⌊q * 100 + 1 / 2⌋ : ℚ) / 100
  else -((⌊-(q * 100) + 1 / 2⌋ : ℚ) / 100)

/-- A JavaScript option value: the `number | boolean` union used for
selected option values in `Cart.add`. -/
inductive JsValue where
  | num (q : ℚ)
  | bool (b : Bool)
deriving DecidableEq

/-- JS numeric coercion applied by `>=` / `<=` when a boolean meets a
number (`true >= 0` coerces `true` to `1`). -/
def JsValue.toNumber : JsValue → ℚ
  | .num q => q
  | .bool b => if b then 1 else 0

/-- Truncation toward zero, as used by `Decimal.modulo` (truncated
division remainder). -/
def ratTrunc (q : ℚ) : ℤ :=
  if 0 ≤ q then ⌊q⌋ else ⌈q⌉

/-- `Decimal.prototype.modulo`: remainder of truncated division. -/
def decMod (a b : ℚ) : ℚ :=
  a - b * (ratTrunc (a / b) : ℚ)

/-- A resolved line-item option as emitted by the option resolver in
`Cart.add` and stored on `LineItem.options`
(`{sku, value, price, name}`). -/
structure LineOption where
  sku : String
  value : JsValue
  price : ℚ
  name : String
deriving DecidableEq

/-- `LineItem` (src/index.tsx lines 591-645). `meta` is opaque data; its
concrete type is irrelevant to every computation, so it is modelled as a
string. -/
structure LineItem where
  sku : String
  url : String
  quantity : ℚ
  price : ℚ
  name : String
  meta : String
  options : List LineOption
deriving DecidableEq

/-- The raw data handed to the `LineItem` constructor. Quantity and price
are already rationals (the `new Decimal(...)` parses are assumed
well-formed; the only validation in the constructor is the price check). -/
structure LineItemValue where
  sku : String
  url : String
  quantity : ℚ
  price : ℚ
  name : String
  meta : String
  options : List LineOption
deriving DecidableEq

/-- Errors thrown inside `Cart.add` (all surfaced as JS exceptions). -/
inductive AddErr where
  | productNotFound
  | noOffer
  | unknownOption
  | incompatibleOptions
  | unsupportedValue
  | invalidPrice
  | jsError
deriving DecidableEq

/-- The `LineItem` constructor (lines 600-614): fails with
`TypeError('Price cannot be negative ...')` unless `price > 0`. -/
def lineItemMk (v : LineItemValue) : Except AddErr LineItem :=
  if 0 < v.price then
    .ok ⟨v.sku, v.url, v.quantity, v.price, v.name, v.meta, v.options⟩
  else .error .invalidPrice

/-- `LineItem.total` (lines 616-620):
`reduce(add, this.price)` over the option prices, multiplied by the
quantity, rounded to 2 decimal places half-up. -/
def LineItem.total (li : LineItem) : ℚ :=
  round2 (li.quantity * (List.foldl (· + ·) li.price (li.options.map LineOption.price)))

/-- `LineItem.equals` (lines 634-644): compares `url`, `price` (by value),
`name` and `JSON.stringify` of the option lists. Since `Decimal` holds a
canonical exact value, stringified equality of the option lists coincides
with structural equality of the `LineOption` lists. `meta`, `sku` and
`quantity` are not compared. -/
def LineItem.equals (a b : LineItem) : Bool :=
  decide (a.url = b.url) && decide (a.price = b.price) &&
    decide (a.name = b.name) && decide (a.options = b.options)

/-- A `number` constraint (`NumberConstraint`): optional fixed value,
optional min/max/step bounds, a price and a currency. -/
structure NumberConstraint where
  value : Option ℚ
  min : Option ℚ
  max : Option ℚ
  step : Option ℚ
  price : ℚ
  currency : String
deriving DecidableEq

/-- A `boolean` constraint (`BooleanConstraint`). -/
structure BooleanConstraint where
  value : Bool
  price : ℚ
  currency : String
deriving DecidableEq

/-- The value predicate of an `adjustment` constraint
(`{eq} | {gt} | {ge} | {lt} | {le}`). -/
inductive AdjPred where
  | eq (q : ℚ)
  | gt (q : ℚ)
  | ge (q : ℚ)
  | lt (q : ℚ)
  | le (q : ℚ)
deriving DecidableEq

/-- An `adjustment` constraint (`AdjustmentConstraint`). -/
structure AdjustmentConstraint where
  option : String
  value : Option AdjPred
  unique : Option String
  price : ℚ
  currency : String
deriving DecidableEq

/-- The `Constraint` union (`number | boolean | incompatible |
adjustment`). -/
inductive Constraint where
  | number (c : NumberConstraint)
  | boolean (c : BooleanConstraint)
  | incompatible (option : String)
  | adjustment (c : AdjustmentConstraint)
deriving DecidableEq

/-- A product option from the JSON-LD product data (`JsonLdOption`). -/
structure JsonLdOption where
  sku : String
  name : String
  constraints : List Constraint
deriving DecidableEq

/-- A currency-scoped offer (`JsonLdOffer`); the fields `Cart.add`
actually reads. -/
structure JsonLdOffer where
  priceCurrency : String
  price : ℚ
deriving DecidableEq

/-- The JSON-LD product descriptor (`JsonLd`); presentation-only fields
(`image`, `@context`, `@type`, ...) that the cart logic never reads are
omitted. The `offers: JsonLdOffer | JsonLdOffer[]` union is modelled as a
list; the single-offer branch behaves exactly like a one-element array
(first element of the currency filter). -/
structure JsonLd where
  sku : String
  url : String
  name : String
  offers : List JsonLdOffer
  options : List JsonLdOption
deriving DecidableEq

/-- Strict JS `===` between the selected value and a number constraint's
optional fixed `value` field (no coercion; `value === undefined` is false
for any `number | boolean` selection). -/
def strictEqFixed : Option ℚ → JsValue → Bool
  | some v, .num q => decide (q = v)
  | _, _ => false

/-- The `number` branch of the constraint matcher (lines 186-194).
`Except Unit` models a thrown exception: `new Decimal(value as number)`
throws when the selected value is a boolean, and `modulo(0)` divides by
zero; both abort the whole `add`. The `&&` chain short-circuits, so the
step check only runs when the min/max checks passed. Comparisons `>=` /
`<=` use JS numeric coercion. -/
def numberMatches (cur : String) (value : JsValue) (c : NumberConstraint) :
    Except Unit Bool :=
  if cur = c.currency then
    if strictEqFixed c.value value then .ok true
    else
      let n := value.toNumber
      let minOk := match c.min with
        | none => true
        | some m => decide (m ≤ n)
      let maxOk := match c.max with
        | none => true
        | some m => decide (n ≤ m)
      if minOk && maxOk then
        match c.step with
        | none => .ok true
        | some s =>
          match value with
          | .bool _ => .error ()
          | .num q => if s = 0 then .error () else .ok (decide (decMod q s = 0))
      else .ok false
  else .ok false

/-- The `boolean` branch of the constraint matcher (line 197):
`offer.priceCurrency === c.currency && (!c.value || value === c.value)`. -/
def booleanMatches (cur : String) (value : JsValue) (c : BooleanConstraint) : Bool :=
  decide (cur = c.currency) && (!c.value || decide (value = .bool c.value))

/-- The predicate passed to `option.constraints.find` (lines 184-201);
`incompatible` and `adjustment` constraints never match a selection. -/
def constraintMatches (cur : String) (value : JsValue) : Constraint → Except Unit Bool
  | .number c => numberMatches cur value c
  | .boolean c => .ok (booleanMatches cur value c)
  | .incompatible _ => .ok false
  | .adjustment _ => .ok false

/-- `Array.prototype.find` with a predicate that can throw. -/
def findMatch (cur : String) (value : JsValue) :
    List Constraint → Except Unit (Option Constraint)
  | [] => .ok none
  | c :: rest =>
    match constraintMatches cur value c with
    | .error e => .error e
    | .ok true => .ok (some c)
    | .ok false => findMatch cur value rest

/-- The base price of a matched constraint (the `find` result is cast to
`NumberConstraint | BooleanConstraint`; the other kinds cannot be
returned by the matcher). -/
def constraintPrice : Constraint → ℚ
  | .number c => c.price
  | .boolean c => c.price
  | .incompatible _ => 0
  | .adjustment _ => 0

/-- First-match association lookup, as `options[key]` /
`Object.entries` membership over the buyer's selection object. -/
def lookupSel : List (String × JsValue) → String → Option JsValue
  | [], _ => none
  | (k, v) :: rest, key => if k = key then some v else lookupSel rest key

/-- JS truthiness of the optional `unique` tag (`if (c.unique)`): an
absent or empty string is falsy. -/
def uniqueTruthy : Option String → Bool
  | none => false
  | some s => decide (s ≠ "")

/-- An adjustment's value predicate against the dependency's selected
numeric value (lines 222-232). -/
def adjPredHolds : AdjPred → ℚ → Bool
  | .eq v, d => decide (d = v)
  | .gt v, d => decide (v < d)
  | .ge v, d => decide (v ≤ d)
  | .lt v, d => decide (d < v)
  | .le v, d => decide (d ≤ v)

/-- Whether one adjustment constraint applies, given the dependency's
selected value `dep` (lines 220-235): with a numeric dependency and a
declared predicate, the predicate must hold; otherwise the adjustment is
skipped only when the dependency was selected as `false`. -/
def adjustmentApplies (c : AdjustmentConstraint) (dep : JsValue) : Bool :=
  match c.value, dep with
  | some p, .num d => adjPredHolds p d
  | some _, .bool d => d
  | none, .num _ => true
  | none, .bool d => d

/-- The price-adjustment loop over one option's constraints (lines
207-242), threading the `usedUniqueAdjustments` set across the whole
resolution pass. `value` is the currently resolved selection's own value
(`value !== false` gate). -/
def applyAdjustments (cur : String) (sels : List (String × JsValue)) (value : JsValue) :
    List Constraint → ℚ → List String → ℚ × List String
  | [], price, used => (price, used)
  | .adjustment c :: rest, price, used =>
    if cur = c.currency ∧ (lookupSel sels c.option).isSome = true ∧ value ≠ .bool false then
      if uniqueTruthy c.unique && used.contains (c.unique.getD "") then
        applyAdjustments cur sels value rest price used
      else
        match lookupSel sels c.option with
        | none => applyAdjustments cur sels value rest price used
        | some dep =>
          if adjustmentApplies c dep then
            applyAdjustments cur sels value rest (price + c.price)
              (if uniqueTruthy c.unique then c.unique.getD "" :: used else used)
          else
            applyAdjustments cur sels value rest price used
    else applyAdjustments cur sels value rest price used
  | _ :: rest, price, used => applyAdjustments cur sels value rest price used

/-- Find the catalog option for a selected sku
(`data.options.find(o => o.sku === sku)`). -/
def findOption (opts : List JsonLdOption) (sku : String) : Option JsonLdOption :=
  opts.find? fun o => decide (o.sku = sku)

/-- Whether some `incompatible` constraint of the option names another
selected sku (lines 178-182; checked eagerly before constraint
matching). -/
def hasIncompatible (con : List Constraint) (sels : List (String × JsValue)) : Bool :=
  con.any fun c =>
    match c with
    | .incompatible o => (lookupSel sels o).isSome
    | _ => false

/-- Resolution of a single selected `(sku, value)` entry (the body of the
`Object.entries(options).map` callback, lines 171-250), returning the
emitted option together with the updated unique-adjustments set. -/
def resolveSel (catalog : List JsonLdOption) (cur : String)
    (sels : List (String × JsValue)) (used : List String)
    (sku : String) (value : JsValue) : Except AddErr (LineOption × List String) :=
  match findOption catalog sku with
  | none => .error .unknownOption
  | some opt =>
    if hasIncompatible opt.constraints sels then .error .incompatibleOptions
    else
      match findMatch cur value opt.constraints with
      | .error _ => .error .jsError
      | .ok none => .error .unsupportedValue
      | .ok (some con) =>
        let pu := applyAdjustments cur sels value opt.constraints (constraintPrice con) used
        .ok (⟨sku, value, pu.1, opt.name⟩, pu.2)

/-- The resolution pass over all selected entries in object order,
threading the unique set (the full `.map` of lines 168-251; the trailing
`.filter(o => o)` never drops anything since every emitted object is
truthy). -/
def resolveOptionsGo (catalog : List JsonLdOption) (cur : String)
    (sels : List (String × JsValue)) :
    List (String × JsValue) → List String → Except AddErr (List LineOption)
  | [], _ => .ok []
  | (sku, v) :: rest, used =>
    match resolveSel catalog cur sels used sku v with
    | .error e => .error e
    | .ok (lo, used') =>
      match resolveOptionsGo catalog cur sels rest used' with
      | .error e => .error e
      | .ok los => .ok (lo :: los)

/-- Option constraint resolution for a whole `add` call. -/
def resolveOptions (catalog : List JsonLdOption) (cur : String)
    (sels : List (String × JsValue)) : Except AddErr (List LineOption) :=
  resolveOptionsGo catalog cur sels sels []

/-- First-match association lookup on string-keyed records
(`record[key]`). -/
def lookupStr {α : Type} : List (String × α) → String → Option α
  | [], _ => none
  | (k, v) :: rest, key => if k = key then some v else lookupStr rest key

/-- A shipping method from the settings
(`{name: locale -> string, price: currency -> number}`). -/
structure ShippingMethod where
  name : List (String × String)
  price : List (String × ℚ)
deriving DecidableEq

/-- Per-country settings (`CountrySettings`). -/
structure CountrySettings where
  enabled : Bool
  name : List (String × String)
  taxrate : ℚ
  shippingMethods : List (String × ShippingMethod)
deriving DecidableEq

/-- `Settings`: country code keyed record of country settings. -/
def Settings : Type := List (String × CountrySettings)

instance : DecidableEq Settings :=
  inferInstanceAs (DecidableEq (List (String × CountrySettings)))

/-- The raw address data (`AddressValue`); `line2` may be absent (the
constructor defaults it to the empty string). -/
structure AddressValue where
  recipient : String
  line1 : String
  line2 : Option String
  postalCode : String
  city : String
  province : Option String
  country : String
  countryName : String
  phone : Option String
deriving DecidableEq

/-- `Address` (lines 543-565). `countryName` becomes `undefined` (here
`none`) when `Cart.setShippingAddress` resolves it against a settings
entry whose localized name map lacks the cart's locale. -/
structure Address where
  recipient : String
  line1 : String
  line2 : String
  postalCode : String
  city : String
  province : Option String
  country : String
  countryName : Option String
  phone : Option String
deriving DecidableEq

/-- The `Address` constructor (`data.line2 || ''`). -/
def Address.fromValue (d : AddressValue) : Address :=
  ⟨d.recipient, d.line1, d.line2.getD "", d.postalCode, d.city, d.province,
    d.country, some d.countryName, d.phone⟩

/-- `Cart` state (lines 46-76). The external fetches (settings, product
JSON-LD) are passed to the operations as oracles; `saveCart` writes to
browser storage and does not touch cart state, so it has no counterpart
here. -/
structure Cart where
  endpoint : String
  currency : String
  stackLineItems : Bool
  cache : List (String × Option JsonLd)
  settings : Option Settings
  lineItems : List LineItem
  email : Option String
  invoiceAddress : Option Address
  shippingAddress : Option Address
  shippingMethod : Option String
  locale : String
deriving DecidableEq

/-- `Cart.subtotal` (lines 495-500). -/
def Cart.subtotal (c : Cart) : ℚ :=
  round2 (List.foldl (· + ·) 0 (c.lineItems.map LineItem.total))

/-- `calcTax` (lines 647-656): the tax-inclusive extraction
`brutto * (rate/100) / (rate/100 + 1)` for a positive rate, zero
otherwise (the `taxrate &&` truthiness test is always true for a
`Decimal` object). -/
def calcTax (brutto taxrate : ℚ) : ℚ :=
  if 0 < taxrate then brutto * ((taxrate / 100) / (taxrate / 100 + 1)) else 0

/-- One element of the array built by `Cart.shippingMethods` (lines
420-424): `{key, name: method.name[locale], price:
method.price[currency]}`; `name`/`price` are `undefined` (`none`) when
the locale/currency key is missing. -/
structure MethodEntry where
  key : String
  name : Option String
  price : Option ℚ
deriving DecidableEq

/-- `Cart.shippingMethods(country)` with settings already loaded (lines
410-429): maps the per-country shipping-method record into an ARRAY of
entries; a country absent from the settings yields the empty result
(`{}` in the source, indistinguishable from an empty array for the `in`
and `[...]` operations applied to it by the callers). -/
def shippingMethodsList (s : Settings) (currency locale country : String) :
    List MethodEntry :=
  match lookupStr s country with
  | none => []
  | some cs =>
    cs.shippingMethods.map fun kv =>
      ⟨kv.1, lookupStr kv.2.name locale, lookupStr kv.2.price currency⟩

/-- Decimal digit value of a character. -/
def charDigit (c : Char) : Option ℕ :=
  if c = '0' then some 0 else if c = '1' then some 1 else
  if c = '2' then some 2 else if c = '3' then some 3 else
  if c = '4' then some 4 else if c = '5' then some 5 else
  if c = '6' then some 6 else if c = '7' then some 7 else
  if c = '8' then some 8 else if c = '9' then some 9 else none

/-- Parse a digit sequence left to right. -/
def parseDigitsGo : List Char → ℕ → Option ℕ
  | [], acc => some acc
  | c :: rest, acc =>
    match charDigit c with
    | none => none
    | some d => parseDigitsGo rest (acc * 10 + d)

/-- A string that is the canonical decimal representation of an array
index (digits only, no leading zero except `"0"` itself) — the keys for
which JS array indexing by string hits an element. -/
def canonicalIndex (s : String) : Option ℕ :=
  match s.data with
  | [] => none
  | c :: rest =>
    if c = '0' ∧ rest ≠ [] then none
    else parseDigitsGo (c :: rest) 0

/-- JS indexing of an array by an arbitrary string key: hits an element
only when the key is the canonical decimal representation of an index in
bounds. -/
def jsArrayGet {α : Type} (l : List α) (key : String) : Option α :=
  match canonicalIndex key with
  | some i => l.get? i
  | none => none

/-- The JS `in` operator on an array value: true for in-bounds index
strings and for the own property `length` (other inherited
`Array.prototype` keys are also `in`, but are never probed by the cart's
call sites and are left out). -/
def jsInArray {α : Type} (key : String) (l : List α) : Bool :=
  (jsArrayGet l key).isSome || decide (key = "length")

/-- `Cart.shipping(method)` (lines 441-452). `none` models a thrown
exception: `shippingMethods` throws when settings are not loaded, and
when the array lookup actually finds an entry, `rule.price` is a plain
number (or `undefined`), so `rule.price[this.currency]` is `undefined`
and `new Decimal(undefined)` throws. An unfound rule yields
`new Decimal(0)`. -/
def Cart.shipping (c : Cart) (method : String) : Option ℚ :=
  match c.shippingAddress with
  | none => some 0
  | some addr =>
    match c.settings with
    | none => none
    | some s =>
      match jsArrayGet (shippingMethodsList s c.currency c.locale addr.country) method with
      | some _ => none
      | none => some 0

/-- `Cart.countryName(code)` (lines 385-391): without settings the code
itself; with settings, `settings[code].name[locale]`, which throws
(`none` outer) when the country is missing and is `undefined` (inner
`none`) when the locale is missing. -/
def Cart.countryNameOf (c : Cart) (code : String) : Option (Option String) :=
  match c.settings with
  | none => some (some code)
  | some s =>
    match lookupStr s code with
    | none => none
    | some cs => some (lookupStr cs.name c.locale)

/-- `Cart.setShippingAddress(data)` (lines 361-368): replaces the address
wholesale, resolves the localized country name, and unconditionally
clears the selected shipping method. `none` models the throw inside
`countryName`. -/
def Cart.setShippingAddress (c : Cart) (data : Option AddressValue) : Option Cart :=
  match data with
  | none => some { c with shippingAddress := none, shippingMethod := none }
  | some av =>
    let addr := Address.fromValue av
    match c.countryNameOf av.country with
    | none => none
    | some cn =>
      some { c with shippingAddress := some { addr with countryName := cn },
                    shippingMethod := none }

/-- `Cart.selectShippingMethod(method)` (lines 431-439). The missing
`throw` on line 433 means a missing shipping address still falls through
to `this.shippingAddress!.country`, which throws on `null` (`none`
result); likewise `shippingMethods` throws without settings. The
membership test `method in this.shippingMethods(...)` is the JS `in`
operator applied to the ARRAY returned by `shippingMethods`. -/
def Cart.selectShippingMethod (c : Cart) (method : String) : Option Cart :=
  match c.shippingAddress with
  | none => none
  | some addr =>
    match c.settings with
    | none => none
    | some s =>
      if jsInArray method (shippingMethodsList s c.currency c.locale addr.country)
      then some { c with shippingMethod := some method }
      else some c

/-- `parts.get(rate) || new Decimal(0)` on the rate-keyed bucket map. -/
def partsGet : List (ℚ × ℚ) → ℚ → ℚ
  | [], _ => 0
  | (k, v) :: rest, key => if k = key then v else partsGet rest key

/-- `parts.set(rate, part)`: replace in place, append if absent
(JS `Map` insertion order). -/
def partsSet : List (ℚ × ℚ) → ℚ → ℚ → List (ℚ × ℚ)
  | [], key, v => [(key, v)]
  | (k, w) :: rest, key, v =>
    if k = key then (key, v) :: rest else (k, w) :: partsSet rest key v

/-- One step of the `lineItems.map(...)` / bucket accumulation in
`Cart.tax` (lines 472-483); the inner `if (!this.shippingAddress)` guard
is unreachable because the getter already returned when the address is
absent. -/
def taxStep (taxrate : ℚ) (acc : List (ℚ × ℚ) × ℚ) (li : LineItem) :
    List (ℚ × ℚ) × ℚ :=
  (partsSet acc.1 taxrate (partsGet acc.1 taxrate + li.total),
    acc.2 + calcTax li.total taxrate)

/-- `Cart.tax` (lines 454-493). `none` models the two possible throws:
the `this.settings!` null dereference and the exception inside
`this.shipping(...)`. Note the source passes the shipping COUNTRY where
`shipping` expects a method key. -/
def Cart.tax (c : Cart) : Option ℚ :=
  match c.shippingAddress with
  | none => some 0
  | some addr =>
    let subtotal := c.subtotal
    if subtotal = 0 then some 0
    else
      match c.settings with
      | none => none
      | some s =>
        match lookupStr s addr.country with
        | none => some 0
        | some cs =>
          let taxrate := cs.taxrate
          let pt := c.lineItems.foldl (taxStep taxrate) ([], 0)
          match c.shipping addr.country with
          | none => none
          | some ship =>
            let tax :=
              if 0 < ship then
                pt.1.foldl (fun t rp => t + calcTax (rp.2 / subtotal * ship) rp.1) pt.2
              else pt.2
            some (round2 tax)

/-- The first-match scan of the stacking loop (lines 265-272): find the
first existing line item `equals` to the new one and add the quantity in
place; `none` when no existing item stacks. -/
def stackLineItem : List LineItem → LineItem → Option (List LineItem)
  | [], _ => none
  | lhs :: rest, li =>
    if lhs.equals li then
      some ({ lhs with quantity := lhs.quantity + li.quantity } :: rest)
    else (stackLineItem rest li).map (lhs :: ·)

/-- Lines 263-277: stack onto an equal line item when `stackLineItems` is
enabled, append otherwise. -/
def addLineItem (stack : Bool) (items : List LineItem) (li : LineItem) :
    List LineItem :=
  if stack then (stackLineItem items li).getD (items ++ [li])
  else items ++ [li]

/-- `fetchProductData` (lines 510-519): per-cart request deduplication;
the fetched result — including a `null` miss — is cached before the
caller checks it. -/
def fetchProductData (F : String → Option JsonLd) (c : Cart) (url : String) :
    Option JsonLd × Cart :=
  match lookupStr c.cache url with
  | some v => (v, c)
  | none => (F url, { c with cache := c.cache ++ [(url, F url)] })

/-- Offer selection (lines 136-143): first offer whose currency matches
the cart's. -/
def pickOffer (currency : String) (offers : List JsonLdOffer) : Option JsonLdOffer :=
  offers.find? fun o => decide (o.priceCurrency = currency)

/-- The pure tail of `Cart.add` once the product data is at hand: offer
selection, option resolution and the `LineItem` constructor. -/
def buildLineItem (currency : String) (data : JsonLd) (url : String) (qty : ℚ)
    (meta : String) (sels : List (String × JsValue)) : Except AddErr LineItem :=
  match pickOffer currency data.offers with
  | none => .error .noOffer
  | some offer =>
    match resolveOptions data.options offer.priceCurrency sels with
    | .error e => .error e
    | .ok lineOptions =>
      lineItemMk ⟨data.sku, url, qty, offer.price, data.name, meta, lineOptions⟩

/-- Lines 127-129: load the settings lazily (`S` is the settings fetch
oracle). -/
def settingsLoaded (S : Settings) (c : Cart) : Cart :=
  match c.settings with
  | some _ => c
  | none => { c with settings := some S }

/-- The remainder of `Cart.add` once the (possibly null) product data and
the post-fetch cart state are at hand: the null check of line 132, then
offer selection, option resolution, the `LineItem` constructor, and the
stack-or-append mutation. -/
def addAfterFetch : Option JsonLd × Cart → String → ℚ → String →
    List (String × JsValue) → Option AddErr × Cart
  | (none, c2), _, _, _, _ => (some .productNotFound, c2)
  | (some data, c2), url, qty, meta, sels =>
    match buildLineItem c2.currency data url qty meta sels with
    | .error e => (some e, c2)
    | .ok li =>
      (none, { c2 with lineItems := addLineItem c2.stackLineItems c2.lineItems li })

/-- `Cart.add` (lines 122-280). `S` is the settings fetch oracle, `F` the
product JSON-LD oracle (both deterministic within one call, as the real
fetches are within one cart session via the cache). The first component
is the thrown error, if any; the second is the cart state after the
call, also when it threw (JS exceptions do not roll state back). A falsy
quantity is an immediate successful no-op. -/
def Cart.add (S : Settings) (F : String → Option JsonLd) (c : Cart) (url : String)
    (qty : ℚ) (meta : String) (sels : List (String × JsValue)) :
    Option AddErr × Cart :=
  if qty = 0 then (none, c)
  else addAfterFetch (fetchProductData F (settingsLoaded S c) url) url qty meta sels

/-! Concrete fixtures used by the example-evaluating theorems and
witnesses below. -/

/-- A shipping method `standard` priced 10 EUR. -/
def mStandard : ShippingMethod := ⟨[("de", "Standardversand")], [("EUR", 10)]⟩

/-- Country settings for `DE`: enabled, 19% tax rate, one shipping
method. -/
def csDE : CountrySettings := ⟨true, [("de", "Deutschland")], 19, [("standard", mStandard)]⟩

/-- Settings with the single country `DE`. -/
def settingsDE : Settings := [("DE", csDE)]

/-- A German shipping address. -/
def addrDE : Address :=
  ⟨"R. Kunde", "Line 1", "", "10115", "Berlin", none, "DE", some "Deutschland", none⟩

/-- A line item of total 119.00 (unit price 119, quantity 1, no
options). -/
def li119 : LineItem := ⟨"sku1", "/p/one", 1, 119, "Product One", "", []⟩

/-- A cart with one 119.00 line item, shipping address in `DE`, settings
loaded, no shipping method selected. -/
def cart3 : Cart :=
  ⟨"https://shop.example/", "EUR", true, [], some settingsDE, [li119],
    none, none, some addrDE, none, "de"⟩

/-- `cart3` with the (positively priced) method `standard` selected in
the `shippingMethod` field. -/
def cart2 : Cart := { cart3 with shippingMethod := some "standard" }

/-- An empty cart with `DE` shipping address and loaded settings. -/
def cart7 : Cart := { cart3 with lineItems := [] }

/-- A fresh cart: settings loaded, empty cache, nothing selected. -/
def cart9 : Cart :=
  ⟨"https://shop.example/", "EUR", true, [], some settingsDE, [],
    none, none, none, none, "de"⟩

/-- A product-data oracle that finds nothing. -/
def fetchNone : String → Option JsonLd := fun _ => none

/-- `cart3` shipped to a country absent from the settings. -/
def cart10 : Cart :=
  { cart3 with shippingAddress := some { addrDE with country := "FR" } }

/-- The option of the spec's example: a `number` constraint with
`min=0, max=10, step=1`, price 2.50, currency EUR. -/
def colorOption : JsonLdOption :=
  ⟨"color", "Color", [.number ⟨none, some 0, some 10, some 1, 5 / 2, "EUR"⟩]⟩

/-- A line item with one option: quantity 2, unit price 10, option price
3. -/
def liOpt : LineItem := ⟨"s2", "/p/two", 2, 10, "Product Two", "m", [⟨"o", .num 1, 3, "Opt"⟩]⟩

/-- A cart with two line items for the tax-shape witness. -/
def cart4 : Cart := { cart3 with lineItems := [li119, liOpt] }

/-- Witness line items for stacking: same product fields, different
quantity and metadata. -/
def li5a : LineItem := ⟨"s5", "/p/five", 2, 10, "Product Five", "meta-a", []⟩

/-- Second stacking witness item (quantity 3, different metadata). -/
def li5b : LineItem := ⟨"s5", "/p/five", 3, 10, "Product Five", "meta-b", []⟩

/-- An empty stacking cart (`stackLineItems = true`). -/
def cart5 : Cart :=
  ⟨"https://shop.example/", "EUR", true, [], some settingsDE, [],
    none, none, none, none, "de"⟩

/-- A valid line-item input (price 5). -/
def v6pos : LineItemValue := ⟨"s6", "/p/six", 1, 5, "Product Six", "", []⟩

/-- A line-item input with non-positive price. -/
def v6neg : LineItemValue := ⟨"s6", "/p/six", 1, -3, "Product Six", "", []⟩

example : LineItem.total li119 = 119 := by
  norm_num [LineItem.total, li119, round2]
example : LineItem.total liOpt = 26 := by
  norm_num [LineItem.total, liOpt, round2]
example : Cart.subtotal cart3 = 119 := by
  norm_num [Cart.subtotal, cart3, li119, LineItem.total, round2]
example : Cart.tax cart3 = some 19 := by
  simp [Cart.tax, cart3, addrDE, settingsDE, csDE, mStandard, lookupStr,
    Cart.subtotal, li119, LineItem.total, round2, taxStep, partsGet, partsSet,
    Cart.shipping, shippingMethodsList, jsArrayGet, canonicalIndex, parseDigitsGo,
    charDigit, calcTax]
  norm_num
example : Cart.tax cart2 = some 19 := by
  simp [Cart.tax, cart2, cart3, addrDE, settingsDE, csDE, mStandard, lookupStr,
    Cart.subtotal, li119, LineItem.total, round2, taxStep, partsGet, partsSet,
    Cart.shipping, shippingMethodsList, jsArrayGet, canonicalIndex, parseDigitsGo,
    charDigit, calcTax]
  norm_num
example : Cart.selectShippingMethod cart7 "standard" = some cart7 := by decide
example : (Cart.selectShippingMethod cart7 "0").map Cart.shippingMethod
    = some (some "0") := by decide
example : resolveOptions [colorOption] "EUR" [("color", .num 11)]
    = .error .unsupportedValue := rfl
example : (Cart.add settingsDE fetchNone cart9 "/p/x" 1 "" []).1
    = some .productNotFound := by decide
example : (Cart.add settingsDE fetchNone cart9 "/p/x" 1 "" []).2.cache
    = [("/p/x", none)] := by decide
example : Cart.tax cart10 = some 0 := by
  simp [Cart.tax, cart10, cart3, addrDE, settingsDE, csDE, mStandard, lookupStr,
    Cart.subtotal, li119, LineItem.total, round2]


/-! Helper lemmas. -/

/-- `reduce((lhs, rhs) => lhs.add(rhs), init)` is the initial value plus
the list sum. -/
theorem foldl_add_eq (l : List ℚ) (a : ℚ) : List.foldl (· + ·) a l = a + l.sum := by
  induction l generalizing a with
  | nil => simp
  | cons x xs ih => rw [List.foldl_cons, ih, List.sum_cons]; ring

/-! Claim theorems. -/

/-- C1: for every line item with positive unit price, `LineItem.total`
equals the round-half-up to 2 decimals of the quantity times the sum of
the unit price and all option prices. -/
theorem total_is_rounded_price_times_quantity (li : LineItem) (_h : 0 < li.price) :
    li.total = round2 (li.quantity * (li.price + (li.options.map LineOption.price).sum)) := by
  unfold LineItem.total
  rw [foldl_add_eq]

/-- Witness for C1 at a concrete line item (quantity 2, unit price 10,
one option priced 3; total 26.00). -/
theorem total_is_rounded_price_times_quantity_witness :
    (0 : ℚ) < liOpt.price ∧
      liOpt.total
        = round2 (liOpt.quantity * (liOpt.price + (liOpt.options.map LineOption.price).sum)) :=
  ⟨by norm_num [liOpt], total_is_rounded_price_times_quantity liOpt (by norm_num [liOpt])⟩

/-- C3: `calcTax` extracts exactly `t * r / (r + 100)` for every total
`t` and rate `r > 0`; and on the concrete cart with country tax rate 19,
one line item of total 119.00 and no shipping method selected, the tax
getter returns 19.00. -/
theorem calcTax_extraction_formula_and_example :
    (∀ t r : ℚ, 0 < r → calcTax t r = t * r / (r + 100)) ∧ Cart.tax cart3 = some 19 := by
  constructor
  · intro t r hr
    have h2 : r + 100 ≠ 0 := by linarith
    unfold calcTax
    rw [if_pos hr]
    field_simp
  · simp [Cart.tax, cart3, addrDE, settingsDE, csDE, mStandard, lookupStr,
      Cart.subtotal, li119, LineItem.total, round2, taxStep, partsGet, partsSet,
      Cart.shipping, shippingMethodsList, jsArrayGet, canonicalIndex, parseDigitsGo,
      charDigit, calcTax]
    norm_num

/-- Witness for C3's rate hypothesis at `t = 119`, `r = 19`. -/
theorem calcTax_extraction_formula_witness :
    (0:ℚ) < 19 ∧ calcTax 119 19 = 119 * 19 / (19 + 100) :=
  ⟨by norm_num, calcTax_extraction_formula_and_example.1 119 19 (by norm_num)⟩

/-- C6: the `LineItem` constructor fails with the price `TypeError` for
every input with `price <= 0` and succeeds (producing the line item) for
every input with `price > 0`. -/
theorem lineItemMk_price_check (v : LineItemValue) :
    (v.price ≤ 0 → lineItemMk v = .error .invalidPrice) ∧
      (0 < v.price →
        lineItemMk v = .ok ⟨v.sku, v.url, v.quantity, v.price, v.name, v.meta, v.options⟩) := by
  constructor
  · intro h
    unfold lineItemMk
    rw [if_neg (not_lt.mpr h)]
  · intro h
    unfold lineItemMk
    rw [if_pos h]

/-- Witness for C6 at a positive-price and a negative-price input. -/
theorem lineItemMk_price_check_witness :
    lineItemMk v6pos = .ok ⟨"s6", "/p/six", 1, 5, "Product Six", "", []⟩ ∧
      lineItemMk v6neg = .error .invalidPrice :=
  ⟨(lineItemMk_price_check v6pos).2 (by norm_num [v6pos]),
    (lineItemMk_price_check v6neg).1 (by norm_num [v6neg])⟩

/-- C10: with a shipping address set, positive subtotal and loaded
settings that have no entry for the address's country, the tax getter
returns zero (it does not throw). -/
theorem tax_zero_for_unknown_country (c : Cart) (addr : Address) (s : Settings)
    (haddr : c.shippingAddress = some addr) (hset : c.settings = some s)
    (hsub : 0 < c.subtotal) (hmiss : lookupStr s addr.country = none) :
    c.tax = some 0 := by
  unfold Cart.tax
  rw [haddr]
  simp only
  rw [if_neg (ne_of_gt hsub), hset]
  simp only [hmiss]

/-- Witness for C10 at a cart shipped to `FR` with only `DE` in the
settings. -/
theorem tax_zero_for_unknown_country_witness :
    cart10.shippingAddress = some { addrDE with country := "FR" } ∧
      cart10.settings = some settingsDE ∧ 0 < cart10.subtotal ∧
      lookupStr settingsDE "FR" = none ∧ Cart.tax cart10 = some 0 := by
  have hpos : 0 < cart10.subtotal := by
    simp [Cart.subtotal, cart10, cart3, li119, LineItem.total, round2]
    norm_num
  exact ⟨rfl, rfl, hpos, rfl,
    tax_zero_for_unknown_country cart10 _ _ rfl rfl hpos rfl⟩

/-- `find` over constraints yields nothing when the matcher rejects every
constraint (without throwing). -/
theorem findMatch_none_of_all_false (cur : String) (v : JsValue) (l : List Constraint)
    (h : ∀ con ∈ l, constraintMatches cur v con = .ok false) :
    findMatch cur v l = .ok none := by
  induction l with
  | nil => rfl
  | cons c rest ih =>
    unfold findMatch
    rw [h c (List.mem_cons_self c rest)]
    exact ih fun con hc => h con (List.mem_cons_of_mem c hc)

/-- C8: if the catalog option for a selected sku exists, no
incompatibility constraint fires, and the matcher rejects every
constraint for the selected value (under the offer currency), resolving
that selection fails with the UnsupportedValue error; in particular the
option with a number constraint `min=0, max=10, step=1` (price 2.50)
rejects the selected value 11. -/
theorem no_matching_constraint_is_unsupported :
    (∀ (catalog : List JsonLdOption) (cur : String) (sels : List (String × JsValue))
        (used : List String) (sku : String) (value : JsValue) (opt : JsonLdOption),
      findOption catalog sku = some opt →
      hasIncompatible opt.constraints sels = false →
      (∀ con ∈ opt.constraints, constraintMatches cur value con = .ok false) →
      resolveSel catalog cur sels used sku value = .error .unsupportedValue) ∧
    resolveOptions [colorOption] "EUR" [("color", .num 11)] = .error .unsupportedValue := by
  constructor
  · intro catalog cur sels used sku value opt hfind hinc hall
    unfold resolveSel
    rw [hfind]
    simp only [hinc, Bool.false_eq_true, if_false]
    rw [findMatch_none_of_all_false cur value opt.constraints hall]
  · rfl

/-- Witness for C8 at the spec's concrete example (value 11 against
`min=0, max=10, step=1`). -/
theorem no_matching_constraint_is_unsupported_witness :
    findOption [colorOption] "color" = some colorOption ∧
      resolveSel [colorOption] "EUR" [("color", .num 11)] [] "color" (.num 11)
        = .error .unsupportedValue :=
  ⟨rfl,
    no_matching_constraint_is_unsupported.1 [colorOption] "EUR" [("color", .num 11)] []
      "color" (.num 11) colorOption rfl rfl (by
        intro con hc
        simp only [colorOption, List.mem_singleton] at hc
        subst hc
        rfl)⟩

/-- `LineItem.equals` only reads the four compared fields of its
argument. -/
theorem equals_ext (x y : LineItem) (h1 : x.url = y.url) (h2 : x.price = y.price)
    (h3 : x.name = y.name) (h4 : x.options = y.options) (z : LineItem) :
    z.equals y = z.equals x := by
  unfold LineItem.equals
  rw [h1, h2, h3, h4]

/-- Two line items agreeing on url, price, name and options are `equals`
(whatever their metadata, sku and quantity). -/
theorem equals_of_fields (x y : LineItem) (h1 : x.url = y.url) (h2 : x.price = y.price)
    (h3 : x.name = y.name) (h4 : x.options = y.options) : x.equals y = true := by
  unfold LineItem.equals
  rw [h1, h2, h3, h4]
  simp

/-- The stacking scan finds nothing among items none of which `equals`
the new one. -/
theorem stackLineItem_none (l : List LineItem) (x : LineItem)
    (h : ∀ li ∈ l, li.equals x = false) : stackLineItem l x = none := by
  induction l with
  | nil => rfl
  | cons a rest ih =>
    unfold stackLineItem
    rw [h a (List.mem_cons_self a rest)]
    simp only [Bool.false_eq_true, if_false]
    rw [ih fun li hli => h li (List.mem_cons_of_mem a hli)]
    rfl

/-- The stacking scan merges into the last element when it is the only
equal one. -/
theorem stackLineItem_last (l : List LineItem) (x y : LineItem)
    (h : ∀ li ∈ l, li.equals x = false) (hy : y.equals x = true) :
    stackLineItem (l ++ [y]) x
      = some (l ++ [{ y with quantity := y.quantity + x.quantity }]) := by
  induction l with
  | nil =>
    rw [List.nil_append]
    unfold stackLineItem
    rw [hy]
    rfl
  | cons a rest ih =>
    rw [List.cons_append]
    unfold stackLineItem
    rw [h a (List.mem_cons_self a rest)]
    simp only [Bool.false_eq_true, if_false]
    rw [ih fun li hli => h li (List.mem_cons_of_mem a hli)]
    rfl

/-- C5: adding two line items that agree on url, unit price, name and
(serialized) option list — metadata and quantity free — onto a cart with
no existing equal line item yields, with `stackLineItems = true`, exactly
one appended line item carrying the summed quantity, and with
`stackLineItems = false`, two separate appended line items. -/
theorem stacking_merges_and_non_stacking_appends (c : Cart) (li1 li2 : LineItem)
    (hurl : li1.url = li2.url) (hprice : li1.price = li2.price)
    (hname : li1.name = li2.name) (hopts : li1.options = li2.options)
    (hfresh : ∀ li ∈ c.lineItems, li.equals li1 = false) :
    (c.stackLineItems = true →
      addLineItem c.stackLineItems (addLineItem c.stackLineItems c.lineItems li1) li2
        = c.lineItems ++ [{ li1 with quantity := li1.quantity + li2.quantity }]) ∧
    (c.stackLineItems = false →
      addLineItem c.stackLineItems (addLineItem c.stackLineItems c.lineItems li1) li2
        = c.lineItems ++ [li1, li2]) := by
  constructor
  · intro hs
    rw [hs]
    unfold addLineItem
    rw [if_pos rfl, if_pos rfl]
    rw [stackLineItem_none c.lineItems li1 hfresh]
    simp only [Option.getD_none]
    have hfresh2 : ∀ li ∈ c.lineItems, li.equals li2 = false := by
      intro li hli
      rw [equals_ext li1 li2 hurl hprice hname hopts li]
      exact hfresh li hli
    rw [stackLineItem_last c.lineItems li2 li1 hfresh2
      (equals_of_fields li1 li2 hurl hprice hname hopts)]
    rfl
  · intro hs
    rw [hs]
    unfold addLineItem
    simp only [Bool.false_eq_true, if_false]
    rw [List.append_assoc]
    rfl

/-- Witness for C5: an empty stacking cart and two concrete line items
differing only in quantity and metadata. -/
theorem stacking_merges_and_non_stacking_appends_witness :
    (∀ li ∈ cart5.lineItems, li.equals li5a = false) ∧
      ((cart5.stackLineItems = true →
        addLineItem cart5.stackLineItems
            (addLineItem cart5.stackLineItems cart5.lineItems li5a) li5b
          = cart5.lineItems ++ [{ li5a with quantity := li5a.quantity + li5b.quantity }]) ∧
      (cart5.stackLineItems = false →
        addLineItem cart5.stackLineItems
            (addLineItem cart5.stackLineItems cart5.lineItems li5a) li5b
          = cart5.lineItems ++ [li5a, li5b])) :=
  ⟨by simp [cart5],
    stacking_merges_and_non_stacking_appends cart5 li5a li5b rfl rfl rfl rfl
      (by simp [cart5])⟩

/-- Folding the tax accumulation step from a single-bucket state keeps a
single bucket: the bucket collects the exact sum of line-item totals and
the running tax collects the exact sum of per-item extractions, with no
rounding. -/
theorem taxStep_fold (r : ℚ) (items : List LineItem) (p t : ℚ) :
    items.foldl (taxStep r) ([(r, p)], t)
      = ([(r, p + (items.map LineItem.total).sum)],
          t + (items.map fun li => calcTax li.total r).sum) := by
  induction items generalizing p t with
  | nil => simp
  | cons li rest ih =>
    rw [List.foldl_cons]
    have hstep : taxStep r ([(r, p)], t) li
        = ([(r, p + li.total)], t + calcTax li.total r) := by
      simp [taxStep, partsGet, partsSet]
    rw [hstep, ih]
    simp [add_assoc]

/-- The first accumulation step from the empty bucket map. -/
theorem taxStep_first (r : ℚ) (t : ℚ) (li : LineItem) :
    taxStep r ([], t) li = ([(r, li.total)], t + calcTax li.total r) := by
  simp [taxStep, partsGet, partsSet]

/-- C4: the tax getter's result is the round-half-up to 2 decimals of the
fully un-rounded tax expression: the sum of the exact per-line-item
extractions plus, when the shipping value is positive, the exact
proportional allocation — no intermediate value is rounded; the single
rounding is applied to the final sum. -/
theorem tax_is_round2_of_unrounded_sum (c : Cart) (addr : Address) (s : Settings)
    (cs : CountrySettings) (ship : ℚ)
    (haddr : c.shippingAddress = some addr) (hset : c.settings = some s)
    (hcs : lookupStr s addr.country = some cs)
    (hsub : c.subtotal ≠ 0)
    (hship : c.shipping addr.country = some ship) :
    c.tax = some (round2
      ((c.lineItems.map fun li => calcTax li.total cs.taxrate).sum +
        (if 0 < ship then
          calcTax ((c.lineItems.map LineItem.total).sum / c.subtotal * ship) cs.taxrate
        else 0))) := by
  unfold Cart.tax
  rw [haddr]
  simp only
  rw [if_neg hsub, hset]
  simp only [hcs, hship]
  cases hitems : c.lineItems with
  | nil =>
    exfalso
    apply hsub
    simp [Cart.subtotal, hitems, round2]
    norm_num
  | cons li rest =>
    rw [List.foldl_cons, taxStep_first, taxStep_fold]
    by_cases hpos : 0 < ship
    · rw [if_pos hpos, if_pos hpos]
      simp only [List.foldl_cons, List.foldl_nil, List.map_cons, List.sum_cons]
      congr 1
      ring_nf
    · rw [if_neg hpos, if_neg hpos]
      simp only [List.map_cons, List.sum_cons]
      congr 1
      ring_nf

/-- Witness for C4 at a two-item cart (totals 119.00 and 26.00, rate 19,
shipping value 0 as produced by the getter's country lookup). -/
theorem tax_is_round2_of_unrounded_sum_witness :
    cart4.shippingAddress = some addrDE ∧ cart4.settings = some settingsDE ∧
      lookupStr settingsDE "DE" = some csDE ∧ cart4.subtotal ≠ 0 ∧
      Cart.shipping cart4 "DE" = some 0 ∧
      cart4.tax = some (round2
        ((cart4.lineItems.map fun li => calcTax li.total csDE.taxrate).sum +
          (if (0:ℚ) < 0 then
            calcTax ((cart4.lineItems.map LineItem.total).sum / cart4.subtotal * 0) csDE.taxrate
          else 0))) := by
  have hsub : cart4.subtotal ≠ 0 := by
    simp [Cart.subtotal, cart4, cart3, li119, liOpt, LineItem.total, round2]
    norm_num
  refine ⟨rfl, rfl, rfl, hsub, by decide, ?_⟩
  exact tax_is_round2_of_unrounded_sum cart4 addrDE settingsDE csDE 0 rfl rfl rfl hsub
    (by decide)

/-- C2 (code-bug evidence): on the single-rate cart with subtotal 119.00,
tax rate 19 and the positively priced method `standard` selected, the tax
getter returns 19.00: the shipping allocation never runs, because the
getter passes the shipping COUNTRY to `shipping()` where a method key is
expected (and `shipping()` indexes the method ARRAY with it, yielding 0).
The claimed identity requires the allocated tax to equal
`taxExtract(subtotal + s, r) - taxExtract(subtotal, r)`, i.e. a total of
`round2(19 + (calcTax 129 19 - calcTax 119 19)) = 20.60`, not 19.00. -/
theorem tax_ignores_selected_shipping_method :
    cart2.shippingMethod = some "standard" ∧
      lookupStr mStandard.price "EUR" = some 10 ∧
      Cart.tax cart2 = some 19 ∧
      round2 (calcTax 119 19 + (calcTax (119 + 10) 19 - calcTax 119 19)) = 103 / 5 ∧
      (19 : ℚ) ≠ 103 / 5 := by
  refine ⟨rfl, rfl, ?_, ?_, by norm_num⟩
  · simp [Cart.tax, cart2, cart3, addrDE, settingsDE, csDE, mStandard, lookupStr,
      Cart.subtotal, li119, LineItem.total, round2, taxStep, partsGet, partsSet,
      Cart.shipping, shippingMethodsList, jsArrayGet, canonicalIndex, parseDigitsGo,
      charDigit, calcTax]
    norm_num
  · norm_num [calcTax, round2]

/-- C7 (code-bug evidence): with country settings holding the method key
`standard`, `selectShippingMethod "standard"` is silently ignored (the
valid key is rejected, because `method in shippingMethods(...)` tests the
JS `in` operator against the ARRAY the method returns), while
`selectShippingMethod "0"` — an array index, not a method key — is
accepted and stored, violating the claimed invariant that a set
`shippingMethod` is a valid key of the country's methods. The clearing
behavior of `setShippingAddress` does hold (last conjunct). -/
theorem selectShippingMethod_tests_array_indices :
    lookupStr csDE.shippingMethods "standard" = some mStandard ∧
      Cart.selectShippingMethod cart7 "standard" = some cart7 ∧
      cart7.shippingMethod = none ∧
      (Cart.selectShippingMethod cart7 "0").map Cart.shippingMethod = some (some "0") ∧
      lookupStr csDE.shippingMethods "0" = none ∧
      (Cart.setShippingAddress { cart7 with shippingMethod := some "0" }
          (some ⟨"R", "L1", none, "10115", "Berlin", none, "DE", "DE", none⟩)).map
          Cart.shippingMethod = some none := by
  refine ⟨rfl, by decide, rfl, by decide, rfl, by decide⟩

/-- The post-fetch cart state differs from the original only in
`settings` (lazily loaded) and `cache` (the fetch result, even a null
one, is recorded). -/
theorem fetch_after_settings (S : Settings) (F : String → Option JsonLd) (c : Cart)
    (u : String) :
    (fetchProductData F (settingsLoaded S c) u).2
      = { c with settings := (fetchProductData F (settingsLoaded S c) u).2.settings,
                 cache := (fetchProductData F (settingsLoaded S c) u).2.cache } := by
  unfold settingsLoaded
  cases hs : c.settings with
  | none =>
    unfold fetchProductData
    cases hl : lookupStr ({ c with settings := some S } : Cart).cache u <;> rfl
  | some s0 =>
    unfold fetchProductData
    cases hl : lookupStr c.cache u <;> rfl

/-- The amended C9: when `add` fails, the cart's line items — and every
field other than the lazily initialized `settings` and the product-data
`cache` — are exactly as before the call; stated as: the resulting cart
is the original with only `settings` and `cache` replaced. -/
theorem failed_add_preserves_all_but_settings_and_cache (S : Settings)
    (F : String → Option JsonLd) (c : Cart) (url : String) (qty : ℚ) (meta : String)
    (sels : List (String × JsValue)) (e : AddErr) (c' : Cart)
    (h : Cart.add S F c url qty meta sels = (some e, c')) :
    c' = { c with settings := c'.settings, cache := c'.cache } := by
  unfold Cart.add at h
  by_cases hq : qty = 0
  · rw [if_pos hq] at h
    exact absurd (congrArg Prod.fst h) (by simp)
  · rw [if_neg hq] at h
    rcases hfd : fetchProductData F (settingsLoaded S c) url with ⟨d, c2⟩
    rw [hfd] at h
    have hc2 : c2 = { c with settings := c2.settings, cache := c2.cache } := by
      have h1 := fetch_after_settings S F c url
      rw [hfd] at h1
      exact h1
    cases d with
    | none =>
      unfold addAfterFetch at h
      rw [Prod.mk.injEq] at h
      exact h.2 ▸ hc2
    | some data =>
      simp only [addAfterFetch] at h
      cases hb : buildLineItem c2.currency data url qty meta sels with
      | error e2 =>
        rw [hb] at h
        rw [Prod.mk.injEq] at h
        exact h.2 ▸ hc2
      | ok li =>
        rw [hb] at h
        exact absurd (congrArg Prod.fst h) (by simp)

/-- C9 counterexample: a failing `add` (product not found) does change a
cart field — the `null` fetch result is recorded in the product cache —
so the claim that ALL other cart fields are exactly as before is false. -/
theorem failed_add_changes_cache :
    (Cart.add settingsDE fetchNone cart9 "/p/x" 1 "" []).1 = some .productNotFound ∧
      (Cart.add settingsDE fetchNone cart9 "/p/x" 1 "" []).2 ≠ cart9 := by
  refine ⟨by decide, by decide⟩

/-- Witness for the amended C9 at the concrete failing add. -/
theorem failed_add_preserves_all_but_settings_and_cache_witness :
    Cart.add settingsDE fetchNone cart9 "/p/x" 1 "" []
        = (some .productNotFound, { cart9 with cache := [("/p/x", none)] }) ∧
      ({ cart9 with cache := [("/p/x", none)] } : Cart)
        = { cart9 with
              settings := ({ cart9 with cache := [("/p/x", none)] } : Cart).settings,
              cache := ({ cart9 with cache := [("/p/x", none)] } : Cart).cache } :=
  ⟨by decide,
    failed_add_preserves_all_but_settings_and_cache settingsDE fetchNone cart9 "/p/x" 1 ""
      [] .productNotFound _ (by decide)⟩

end Shopless
